import Mathlib

/-!
Verification development for the hired-eventually repository
(src/api.py and src/app.py, plus the spec of the cover_letter core).

Python strings are modelled as lists of characters (`PyStr`), falsible
operations as `Option`/`Except`, and raised exceptions as error values.
Components of the `cover_letter` module that are not part of the two
source files are modelled from the specification and marked as such in
their doc comments.
-/

namespace HiredEv

/-- Python strings, modelled at character granularity. -/
abbrev PyStr := List Char

/-- Python `str.strip()`: remove leading and trailing whitespace. -/
def pyStrip (s : PyStr) : PyStr :=
  ((s.dropWhile Char.isWhitespace).reverse.dropWhile Char.isWhitespace).reverse

/-- Python truthiness test for a string after stripping:
`not s or not s.strip()` collapses to `s.strip() == ""`. -/
def isBlank (s : PyStr) : Bool :=
  (pyStrip s).isEmpty

/-- Numeric value of a digit string, most significant first
(the accumulator view of Python `int` on a digit string). -/
def digitsVal (s : PyStr) : Nat :=
  s.foldl (fun a c => 10 * a + (c.toNat - 48)) 0

/-- Parse a nonempty all-digit string. -/
def parseDigits (s : PyStr) : Option Nat :=
  if !s.isEmpty && s.all Char.isDigit then some (digitsVal s) else none

/-- Python `int(s)` on a string: strip whitespace, optional sign, digits;
raises (here: `none`) otherwise.  Underscore digit grouping is not
modelled; no input in this development contains it. -/
def parsePyInt (s : PyStr) : Option Int :=
  let t := pyStrip s
  if t.head? = some '+' then (parseDigits t.tail).map Int.ofNat
  else if t.head? = some '-' then (parseDigits t.tail).map (fun m => -(Int.ofNat m))
  else (parseDigits t).map Int.ofNat

/-- Python `s.split(".")[0]`: longest prefix before the first dot. -/
def splitHeadDot (s : PyStr) : PyStr :=
  s.takeWhile (fun c => c != '.')

/-- Digits of a positive number, most significant first; the first
argument is fuel bounding the recursion depth. -/
def natCharsAux : Nat → Nat → PyStr
  | 0, _ => []
  | _ + 1, 0 => []
  | fuel + 1, n + 1 =>
      natCharsAux fuel ((n + 1) / 10) ++ [Nat.digitChar ((n + 1) % 10)]

/-- Decimal rendering of a natural number, as Python `str(n)` produces. -/
def natChars (n : Nat) : PyStr :=
  if n = 0 then ['0'] else natCharsAux n n

/-! ### Character facts -/

theorem digitChar_isDigit {d : Nat} (h : d < 10) :
    (Nat.digitChar d).isDigit = true := by
  interval_cases d <;> decide

theorem digitChar_toNat {d : Nat} (h : d < 10) :
    (Nat.digitChar d).toNat - 48 = d := by
  interval_cases d <;> decide

theorem not_ws_of_isDigit {c : Char} (h : c.isDigit = true) :
    c.isWhitespace = false := by
  by_contra hw
  rw [Bool.not_eq_false] at hw
  simp only [Char.isWhitespace, Bool.or_eq_true, decide_eq_true_eq] at hw
  rcases hw with ((h1 | h1) | h1) | h1 <;> subst h1 <;> exact absurd h (by decide)

theorem ne_dot_of_isDigit {c : Char} (h : c.isDigit = true) : c ≠ '.' := by
  rintro rfl; exact absurd h (by decide)

theorem ne_plus_of_isDigit {c : Char} (h : c.isDigit = true) : c ≠ '+' := by
  rintro rfl; exact absurd h (by decide)

theorem ne_minus_of_isDigit {c : Char} (h : c.isDigit = true) : c ≠ '-' := by
  rintro rfl; exact absurd h (by decide)

/-! ### List facts -/

theorem dropWhile_eq_self_of {p : Char → Bool} {l : PyStr}
    (h : ∀ c ∈ l, p c = false) : l.dropWhile p = l := by
  cases l with
  | nil => rfl
  | cons a t => rw [List.dropWhile_cons_of_neg]; simp [h a (by simp)]

theorem pyStrip_eq_self {s : PyStr}
    (h : ∀ c ∈ s, c.isWhitespace = false) : pyStrip s = s := by
  unfold pyStrip
  rw [dropWhile_eq_self_of h, dropWhile_eq_self_of, List.reverse_reverse]
  intro c hc
  exact h c (List.mem_reverse.mp hc)

theorem takeWhile_append_of {p : Char → Bool} {A : PyStr} (B : PyStr)
    (hA : ∀ a ∈ A, p a = true) {x : Char} (hx : p x = false) :
    (A ++ x :: B).takeWhile p = A := by
  induction A with
  | nil => simp [List.takeWhile_cons, hx]
  | cons a t ih =>
      rw [List.cons_append, List.takeWhile_cons_of_pos (hA a (by simp))]
      rw [ih (fun b hb => hA b (List.mem_cons_of_mem a hb))]

/-! ### Decimal round trip -/

theorem natCharsAux_eq (fuel : Nat) :
    ∀ n ≤ fuel, natCharsAux fuel n = ((Nat.digits 10 n).map Nat.digitChar).reverse := by
  induction fuel with
  | zero =>
      intro n hn
      obtain rfl : n = 0 := Nat.le_zero.mp hn
      simp [natCharsAux]
  | succ f ih =>
      intro n hn
      cases n with
      | zero => simp [natCharsAux]
      | succ m =>
          have hm : (m + 1) / 10 ≤ f :=
            le_trans
              (Nat.lt_succ_iff.mp (Nat.div_lt_self (Nat.succ_pos m) (by norm_num)))
              (Nat.succ_le_succ_iff.mp hn)
          rw [show natCharsAux (f + 1) (m + 1) =
                natCharsAux f ((m + 1) / 10) ++ [Nat.digitChar ((m + 1) % 10)]
              from rfl,
            ih ((m + 1) / 10) hm,
            Nat.digits_def' (by norm_num : (1 : Nat) < 10) (Nat.succ_pos m)]
          simp

theorem natChars_eq (n : Nat) :
    natChars n = if n = 0 then ['0']
      else ((Nat.digits 10 n).map Nat.digitChar).reverse := by
  unfold natChars
  split
  · rfl
  · exact natCharsAux_eq n n (le_refl n)

theorem natChars_ne_nil (n : Nat) : natChars n ≠ [] := by
  rw [natChars_eq]
  split
  · simp
  · next h =>
      simp only [ne_eq, List.reverse_eq_nil_iff, List.map_eq_nil_iff]
      exact Nat.digits_ne_nil_iff_ne_zero.mpr h

theorem natChars_all_digit {n : Nat} {c : Char} (hc : c ∈ natChars n) :
    c.isDigit = true := by
  rw [natChars_eq] at hc
  split at hc
  · simp only [List.mem_singleton] at hc
    subst hc; decide
  · rw [List.mem_reverse, List.mem_map] at hc
    obtain ⟨d, hd, rfl⟩ := hc
    exact digitChar_isDigit (Nat.digits_lt_base (by norm_num) hd)

theorem foldr_digits_eq_ofDigits (L : List Nat) (h : ∀ d ∈ L, d < 10) :
    L.foldr (fun d a => 10 * a + ((Nat.digitChar d).toNat - 48)) 0
      = Nat.ofDigits 10 L := by
  induction L with
  | nil => simp [Nat.ofDigits]
  | cons d tl ih =>
      rw [List.foldr_cons, Nat.ofDigits_cons,
        ih (fun e he => h e (List.mem_cons_of_mem d he)),
        digitChar_toNat (h d (by simp))]
      ring

theorem digitsVal_natChars (n : Nat) : digitsVal (natChars n) = n := by
  rw [natChars_eq]
  split
  · next h => subst h; decide
  · unfold digitsVal
    rw [List.foldl_reverse, List.foldr_map]
    have := foldr_digits_eq_ofDigits (Nat.digits 10 n)
      (fun d hd => Nat.digits_lt_base (by norm_num) hd)
    simpa [Nat.ofDigits_digits] using this

theorem parsePyInt_natChars (n : Nat) :
    parsePyInt (natChars n) = some (Int.ofNat n) := by
  obtain ⟨c, cs, hcc⟩ := List.exists_cons_of_ne_nil (natChars_ne_nil n)
  have hdig : ∀ x ∈ natChars n, x.isDigit = true := fun x hx => natChars_all_digit hx
  have hstrip : pyStrip (natChars n) = natChars n :=
    pyStrip_eq_self (fun x hx => not_ws_of_isDigit (hdig x hx))
  have hc : c.isDigit = true := hdig c (by rw [hcc]; simp)
  unfold parsePyInt
  rw [hstrip, hcc]
  rw [if_neg, if_neg]
  · unfold parseDigits
    rw [if_pos]
    · rw [← hcc, digitsVal_natChars]
      rfl
    · rw [← hcc]
      simp only [Bool.and_eq_true, Bool.not_eq_true']
      constructor
      · cases h : (natChars n).isEmpty
        · rfl
        · exact absurd (List.isEmpty_iff.mp h) (natChars_ne_nil n)
      · exact List.all_eq_true.mpr hdig
  · simp only [List.head?_cons, Option.some.injEq]
    exact ne_minus_of_isDigit hc
  · simp only [List.head?_cons, Option.some.injEq]
    exact ne_plus_of_isDigit hc

/-! ### Data model -/

/-- Application status, per the spec's enum for `ApplicationRecord`. -/
inductive Status where
  | applied
  | accepted
  | rejected
deriving DecidableEq, Repr

/-- One row of the application ledger (`ApplicationRecord`). -/
structure AppRecord where
  rowNumber : Nat
  company : PyStr
  role : PyStr
  jobId : PyStr
  link : PyStr
  status : Status
deriving DecidableEq, Repr

/-- Result of a generation, as produced by the cover_letter core
(`GenerationResult` in the spec; fields follow the Python attribute
names used at src/api.py line 42 and src/app.py lines 122-134). -/
structure GenerationResult where
  cover_letter : PyStr
  company_name : PyStr
  role_applied : PyStr
  job_id : PyStr
deriving DecidableEq, Repr

/-! ### API endpoint (src/api.py, `generate`) -/

/-- Observable actions of one call to the `/api/generate` endpoint. -/
inductive ApiEvent where
  | createTemp
  | callGen
  | deleteTemp
deriving DecidableEq, Repr

/-- Outcome of one call to the `/api/generate` endpoint. -/
inductive ApiOutcome where
  | httpError (statusCode : Nat) (detail : String)
  | success (body : List (String × PyStr))
  | raised (e : PyStr)
deriving DecidableEq, Repr

/-- src/api.py `generate` (lines 19-42): content-type gate, temporary
file written from the upload, `generate_cover_letter` call guarded by
`try/finally` that unlinks the temporary file, then a two-field JSON
body.  The core call's outcome is an oracle parameter `gen`; the event
list records the order of resource actions. -/
def apiGenerate (contentType : String) (gen : Except PyStr GenerationResult) :
    List ApiEvent × ApiOutcome :=
  if !(["application/pdf", "application/octet-stream"].contains contentType) then
    ([], .httpError 400 "Resume must be a PDF.")
  else
    match gen with
    | .ok r =>
        ([.createTemp, .callGen, .deleteTemp],
         .success [("cover_letter", r.cover_letter), ("company_name", r.company_name)])
    | .error e =>
        ([.createTemp, .callGen, .deleteTemp], .raised e)

/-! ### Ledger operations (cover_letter core, modelled from the spec) -/

/-- Ledger-level failure for a status update. -/
inductive LedgerError where
  | recordNotFound
deriving DecidableEq, Repr

/-- Modelled from the spec: `mark_application_status` / `updateStatus`
(spec section 4.6; the function lives in the cover_letter module, which
is not among the source files).  It fails with `RecordNotFound` when the
row number does not exist in the current table and mutates nothing;
otherwise it sets the status of the addressed row in place, persists,
and returns a confirmation message.  The spec's open question records
that the observed behavior overwrites the status unconditionally
(arbitrary overwrites, last-write-wins).  The returned pair is
(result, persisted table after the call). -/
def mark_application_status (n : Int) (st : Status) (table : List AppRecord) :
    Except LedgerError String × List AppRecord :=
  if table.any (fun r => (r.rowNumber : Int) == n) then
    (.ok "Status updated.",
     table.map (fun r => if (r.rowNumber : Int) == n then { r with status := st } else r))
  else
    (.error .recordNotFound, table)

/-- Modelled from the spec: the derived selectable label
"row#. Company — Role" that `load_applications` builds for each record
(spec section 6, ApplicationLedger interface). -/
def appLabel (r : AppRecord) : PyStr :=
  natChars r.rowNumber ++ '.' :: ' ' :: (r.company ++ ' ' :: '—' :: ' ' :: r.role)

/-- Modelled from the spec: `load_applications` / `list` returns the
full row set in append order together with the derived labels (spec
section 6; the function lives in the cover_letter module, which is not
among the source files). -/
def load_applications (table : List AppRecord) : List AppRecord × List PyStr :=
  (table, table.map appLabel)

/-! ### Mark tab handler (src/app.py, `_do_mark_status`) -/

/-- A raised Python exception at the UI layer. -/
inductive PyExc where
  | valueError
deriving DecidableEq, Repr

/-- src/app.py `_do_mark_status` (lines 168-174): guard on falsy
selection or status, `int(selected.split(".")[0])` (which raises
ValueError when the prefix before the first dot is not an integer
literal), then `mark_application_status` and a reload.  The returned
pair is (handler outcome, persisted table after the call); the handler
outcome carries the ledger result when the row-number conversion
succeeds. -/
def do_mark_status (selected : Option PyStr) (status : Option Status)
    (table : List AppRecord) :
    Except PyExc (Except LedgerError String) × List AppRecord :=
  match status with
  | none => (.ok (.ok "Please select an application and a status."), table)
  | some st =>
      match selected with
      | none => (.ok (.ok "Please select an application and a status."), table)
      | some sel =>
          if sel.isEmpty then
            (.ok (.ok "Please select an application and a status."), table)
          else
            match parsePyInt (splitHeadDot sel) with
            | none => (.error .valueError, table)
            | some n =>
                (.ok (mark_application_status n st table).1,
                 (mark_application_status n st table).2)

/-- Whether a handler outcome is a normal return rather than a raised
exception. -/
def noRaise (o : Except PyExc (Except LedgerError String)) : Bool :=
  match o with
  | .ok _ => true
  | .error _ => false

/-- src/app.py lines 434-438: the Accepted button dispatches
`_do_mark_status(sel, "Accepted")`. -/
def on_accepted_click (sel : Option PyStr) (table : List AppRecord) :=
  do_mark_status sel (some .accepted) table

/-- src/app.py lines 439-443: the Rejected button dispatches
`_do_mark_status(sel, "Rejected")`. -/
def on_rejected_click (sel : Option PyStr) (table : List AppRecord) :=
  do_mark_status sel (some .rejected) table

/-! ### Filename sanitizer (src/app.py, `_sanitize_filename`) -/

/-- Characters matched by the character class of the regex
at src/app.py line 26: the nine reserved filename characters plus
whitespace. -/
def isBadChar (c : Char) : Bool :=
  c == '<' || c == '>' || c == ':' || c == '\"' || c == '/' ||
  c == '\\' || c == '|' || c == '?' || c == '*' || c.isWhitespace

/-- One pass of `re.sub` with pattern `[<>:\x22/\\|?*\s]+` and
replacement "_": each maximal run of bad characters becomes a single
underscore.  `prevBad` records whether the previous character belonged
to a run already replaced. -/
def subBadRuns (prevBad : Bool) : PyStr → PyStr
  | [] => []
  | c :: rest =>
      if isBadChar c then
        (if prevBad then [] else ['_']) ++ subBadRuns true rest
      else
        c :: subBadRuns false rest

/-- src/app.py `_sanitize_filename` (lines 23-27). -/
def sanitize_filename (name : PyStr) : PyStr :=
  if isBlank name then "cover_letter".data
  else if (subBadRuns false (pyStrip name)).isEmpty then "cover_letter".data
  else subBadRuns false (pyStrip name)

/-! ### Generate tab handler (src/app.py, `_generate_cover_letter_ui`) -/

/-- Visibility command carried by a `gr.update(...)` slot of the final
yield: unchanged, shown, or hidden. -/
inductive Upd where
  | noChange
  | shown
  | hidden
deriving DecidableEq, Repr

/-- The final tuple yielded to the Gradio outputs by
`_generate_cover_letter_ui`: cover-letter textbox value, company-name
state, and the six visibility slots. -/
structure UIYield where
  coverText : PyStr
  companyState : PyStr
  downloadBtn : Upd
  copyBtn : Upd
  actionsRow : Upd
  resultSection : Upd
  genStatus : Upd
  coverBox : Upd
deriving DecidableEq, Repr

/-- Full observable effect of one `_generate_cover_letter_ui` call:
the final yield delivered to the UI, whether `generate_cover_letter`
was invoked, and the console warning printed by the fire-and-forget
`_log` task when logging fails (the task swallows its exception). -/
structure UIOut where
  delivered : UIYield
  genCalled : Bool
  logWarning : Option String
deriving DecidableEq, Repr

/-- The early-return yield `("", "", hide, hide, hide, no_result,
hide_status, hide_cover_box)` of src/app.py lines 94-102. -/
def earlyYield : UIYield :=
  { coverText := [], companyState := [], downloadBtn := .hidden,
    copyBtn := .hidden, actionsRow := .hidden, resultSection := .noChange,
    genStatus := .hidden, coverBox := .hidden }

/-- src/app.py `_generate_cover_letter_ui` (lines 79-143).  Inputs
mirror the handler's parameters; the resume file object is reduced to
the optional path `_extract_file_path` would return.  The outcomes of
`generate_cover_letter` and `log_application_to_xlsx` are oracle
parameters `gen` and `logOutcome`.  The intermediate "Calling ... API"
yield is superseded by the final yield modelled here. -/
def uiGenerate (resumePath : Option PyStr) (jobDescription : PyStr)
    (modelName : Option PyStr) (_jobLink : PyStr)
    (gen : Except PyStr GenerationResult) (logOutcome : Except String Unit) :
    UIOut :=
  if (modelName.getD []).isEmpty then
    { delivered := earlyYield, genCalled := false, logWarning := none }
  else if resumePath.isNone || isBlank jobDescription then
    { delivered := earlyYield, genCalled := false, logWarning := none }
  else if (resumePath.getD []).isEmpty then
    { delivered := earlyYield, genCalled := false, logWarning := none }
  else
    match gen with
    | .ok r =>
        { delivered :=
            { coverText := r.cover_letter, companyState := r.company_name,
              downloadBtn := .shown, copyBtn := .shown, actionsRow := .shown,
              resultSection := .shown, genStatus := .hidden, coverBox := .shown },
          genCalled := true,
          logWarning :=
            match logOutcome with
            | .ok _ => none
            | .error e => some ("Failed to log to xlsx: " ++ e) }
    | .error e =>
        { delivered :=
            { coverText := "Error generating cover letter: ".data ++ e,
              companyState := [], downloadBtn := .hidden, copyBtn := .hidden,
              actionsRow := .hidden, resultSection := .shown,
              genStatus := .hidden, coverBox := .shown },
          genCalled := true, logWarning := none }

/-! ### Generation orchestrator (cover_letter core, modelled from the spec) -/

/-- Pipeline steps of the orchestrator, in the spec's sequencing. -/
inductive GenStep where
  | validateProvider
  | extractDoc
  | composePrompt
  | invokeGateway
  | parseResult
deriving DecidableEq, Repr

/-- Typed errors of the generation pipeline (spec section 7). -/
inductive GenError where
  | unsupportedProvider
  | unreadableDocument
  | emptyJobDescription
  | emptyDocumentText
  | providerTimeout
  | providerError (vendor : String) (httpStatus : Nat) (message : String)
deriving DecidableEq, Repr

/-- Modelled from the spec: `generate_cover_letter`, the
GenerationOrchestrator (spec section 4.5; the function lives in the
cover_letter module, which is not among the source files).  Sequencing:
validate providerId, extract document text, fail fast if the job
description or the document text is empty, compose the prompt, invoke
the ProviderGateway, parse the result.  Extraction and the gateway are
oracle parameters; the step list records which pipeline stages ran. -/
def generate_cover_letter (providerValid : Bool) (jobDescription : PyStr)
    (extractOutcome : Except Unit PyStr)
    (gatewayOutcome : Except GenError PyStr)
    (parse : PyStr → GenerationResult) :
    List GenStep × Except GenError GenerationResult :=
  if !providerValid then
    ([.validateProvider], .error .unsupportedProvider)
  else
    match extractOutcome with
    | .error _ => ([.validateProvider, .extractDoc], .error .unreadableDocument)
    | .ok docText =>
        if isBlank jobDescription then
          ([.validateProvider, .extractDoc], .error .emptyJobDescription)
        else if isBlank docText then
          ([.validateProvider, .extractDoc], .error .emptyDocumentText)
        else
          match gatewayOutcome with
          | .error e =>
              ([.validateProvider, .extractDoc, .composePrompt, .invokeGateway],
               .error e)
          | .ok raw =>
              ([.validateProvider, .extractDoc, .composePrompt, .invokeGateway,
                .parseResult],
               .ok (parse raw))

/-! ### Supporting lemmas -/

theorem subBadRuns_no_bad (b : Bool) (l : PyStr) :
    ∀ c ∈ subBadRuns b l, isBadChar c = false := by
  induction l generalizing b with
  | nil => intro c hc; simp [subBadRuns] at hc
  | cons a t ih =>
      intro c hc
      unfold subBadRuns at hc
      split at hc
      · rcases List.mem_append.mp hc with h1 | h1
        · split at h1
          · simp at h1
          · simp only [List.mem_singleton] at h1
            subst h1; decide
        · exact ih true c h1
      · rcases List.mem_cons.mp hc with h1 | h1
        · subst h1
          next hgood => exact Bool.not_eq_true _ ▸ Bool.of_not_eq_true hgood
        · exact ih false c h1

theorem do_mark_status_table_change (sel : Option PyStr) (st : Status)
    (table : List AppRecord) :
    ∀ r' ∈ (do_mark_status sel (some st) table).2, r' ∈ table ∨ r'.status = st := by
  intro r' hr'
  cases sel with
  | none => exact Or.inl hr'
  | some s =>
      simp only [do_mark_status] at hr'
      split at hr'
      · exact Or.inl hr'
      · cases hp : parsePyInt (splitHeadDot s) with
        | none =>
            rw [hp] at hr'
            exact Or.inl hr'
        | some n =>
            rw [hp] at hr'
            have hm : r' ∈ (mark_application_status n st table).2 := hr'
            simp only [mark_application_status] at hm
            split at hm
            · simp only [List.mem_map] at hm
              obtain ⟨r, hr, rfl⟩ := hm
              split
              · exact Or.inr rfl
              · exact Or.inl hr
            · exact Or.inl hm

/-! ### Claims -/

/-- C1: for every invocation of the `/api/generate` endpoint, whenever
the temporary resume file is created, it is also deleted — on the
success path and on the exception path alike (the `try/finally` at
src/api.py lines 33-40). -/
theorem C1_temp_file_deleted (contentType : String)
    (gen : Except PyStr GenerationResult)
    (h : ApiEvent.createTemp ∈ (apiGenerate contentType gen).1) :
    ApiEvent.deleteTemp ∈ (apiGenerate contentType gen).1 := by
  cases hc : ["application/pdf", "application/octet-stream"].contains contentType
  · unfold apiGenerate at h
    rw [hc] at h
    simp at h
  · unfold apiGenerate
    rw [hc]
    cases gen <;> simp

/-- C1 witness: at content type application/pdf and a successful core
call, the temporary file is created and deleted. -/
theorem C1_temp_file_deleted_witness :
    ApiEvent.deleteTemp ∈
      (apiGenerate "application/pdf" (.ok ⟨[], [], [], []⟩)).1 :=
  C1_temp_file_deleted "application/pdf" (.ok ⟨[], [], [], []⟩) (by decide)

/-- C2 counterexample: the content type application/octet-stream is not
PDF, yet the endpoint invokes the core for it (src/api.py line 25
accepts it), so the boundary does not reject every non-PDF content
type. -/
theorem C2_counterexample :
    "application/octet-stream" ≠ "application/pdf" ∧
    ApiEvent.callGen ∈
      (apiGenerate "application/octet-stream" (.ok ⟨[], [], [], []⟩)).1 := by
  constructor
  · decide
  · simp [apiGenerate]

/-- C2 amended: the boundary rejects a request with HTTP 400 and never
invokes the core exactly when the content type is neither
application/pdf nor application/octet-stream; the core is invoked only
for those two content types. -/
theorem C2_amended_content_type_gate (ct : String)
    (gen : Except PyStr GenerationResult) :
    (ct ≠ "application/pdf" → ct ≠ "application/octet-stream" →
      (apiGenerate ct gen).2 = .httpError 400 "Resume must be a PDF." ∧
      ApiEvent.callGen ∉ (apiGenerate ct gen).1) ∧
    (ApiEvent.callGen ∈ (apiGenerate ct gen).1 →
      ct = "application/pdf" ∨ ct = "application/octet-stream") := by
  constructor
  · intro h1 h2
    unfold apiGenerate
    rw [if_pos]
    · exact ⟨rfl, by simp⟩
    · simp [List.contains_cons, h1, h2, Ne.symm h1, Ne.symm h2]
  · intro h
    by_contra hcon
    push_neg at hcon
    unfold apiGenerate at h
    rw [if_pos] at h
    · simp at h
    · simp [List.contains_cons, hcon.1, hcon.2, Ne.symm hcon.1, Ne.symm hcon.2]

/-- C2 amended witness: a text/plain upload is rejected with 400 and
the core is never invoked. -/
theorem C2_amended_witness :
    (apiGenerate "text/plain" (.ok ⟨[], [], [], []⟩)).2 =
      .httpError 400 "Resume must be a PDF." ∧
    ApiEvent.callGen ∉ (apiGenerate "text/plain" (.ok ⟨[], [], [], []⟩)).1 :=
  (C2_amended_content_type_gate "text/plain" (.ok ⟨[], [], [], []⟩)).1
    (by decide) (by decide)

/-- C3 counterexample: for a successful generation whose result has all
four fields populated, the endpoint's response body carries only
cover_letter and company_name (src/api.py line 42); role_applied and
job_id are absent, so the full GenerationResult is not returned. -/
theorem C3_counterexample :
    (apiGenerate "application/pdf"
        (.ok ⟨"Dear team".data, "Acme".data, "Engineer".data, "42".data⟩)).2 =
      .success [("cover_letter", "Dear team".data), ("company_name", "Acme".data)] ∧
    "role_applied" ∉
      ([("cover_letter", "Dear team".data), ("company_name", "Acme".data)]).map
        Prod.fst ∧
    "job_id" ∉
      ([("cover_letter", "Dear team".data), ("company_name", "Acme".data)]).map
        Prod.fst := by
  refine ⟨?_, by decide, by decide⟩
  simp [apiGenerate]

/-- C3 amended: on every successful generation the endpoint returns
exactly the two fields cover_letter and company_name of the
GenerationResult; role_applied and job_id are not part of the response
body. -/
theorem C3_amended_two_fields (r : GenerationResult) :
    (apiGenerate "application/pdf" (.ok r)).2 =
      .success [("cover_letter", r.cover_letter), ("company_name", r.company_name)] ∧
    (apiGenerate "application/octet-stream" (.ok r)).2 =
      .success [("cover_letter", r.cover_letter), ("company_name", r.company_name)] := by
  constructor <;> rfl

/-- C4 counterexample: a record whose status is already Accepted is
re-marked Rejected by the Rejected button's dispatch, so a reachable
operation transitions a record away from Accepted. -/
theorem C4_counterexample :
    (([⟨1, "Acme".data, "Eng".data, [], [], .accepted⟩] :
        List AppRecord).map AppRecord.status = [.accepted]) ∧
    ((on_rejected_click
        (some (appLabel ⟨1, "Acme".data, "Eng".data, [], [], .accepted⟩))
        [⟨1, "Acme".data, "Eng".data, [], [], .accepted⟩]).2.map
      AppRecord.status = [.rejected]) := by
  decide

/-- C4 amended: the mark operations assign only the statuses Accepted
and Rejected (every record changed by a click takes the clicked
status), but the assignment is an unconditional overwrite, so
Accepted to Rejected and Rejected to Accepted are reachable. -/
theorem C4_amended_overwrite (sel : Option PyStr) (table : List AppRecord) :
    (∀ r' ∈ (on_accepted_click sel table).2, r' ∈ table ∨ r'.status = .accepted) ∧
    (∀ r' ∈ (on_rejected_click sel table).2, r' ∈ table ∨ r'.status = .rejected) :=
  ⟨do_mark_status_table_change sel .accepted table,
   do_mark_status_table_change sel .rejected table⟩

/-- C4 amended witness: marking the sole Applied record Accepted yields
a record that is new to the table and has status Accepted. -/
theorem C4_amended_witness :
    (⟨1, "Acme".data, "Eng".data, [], [], .accepted⟩ : AppRecord) ∈
        [(⟨1, "Acme".data, "Eng".data, [], [], .applied⟩ : AppRecord)] ∨
    (⟨1, "Acme".data, "Eng".data, [], [], .accepted⟩ : AppRecord).status =
      .accepted :=
  (C4_amended_overwrite
      (some (appLabel ⟨1, "Acme".data, "Eng".data, [], [], .applied⟩))
      [⟨1, "Acme".data, "Eng".data, [], [], .applied⟩]).1
    ⟨1, "Acme".data, "Eng".data, [], [], .accepted⟩ (by decide)

/-- C5: when generation succeeds, the final yield delivered to the UI
is identical whether the xlsx logging call fails or succeeds — a
logging failure never masks or alters a successful generation
(src/app.py lines 113-137). -/
theorem C5_logging_never_masks (resumePath : Option PyStr) (jd : PyStr)
    (mn : Option PyStr) (jl : PyStr) (r : GenerationResult) (e : String) :
    (uiGenerate resumePath jd mn jl (.ok r) (.error e)).delivered =
      (uiGenerate resumePath jd mn jl (.ok r) (.ok ())).delivered := by
  unfold uiGenerate
  split
  · rfl
  · split
    · rfl
    · split
      · rfl
      · rfl

/-- C6: a blank (empty or whitespace-only) job description fails fast:
the orchestrator surfaces an error without composing a prompt or
invoking the provider gateway, and the UI handler returns without ever
invoking the core (src/app.py line 96; spec section 4.5). -/
theorem C6_fail_fast_blank_jd (pv : Bool) (jd : PyStr)
    (eo : Except Unit PyStr) (go : Except GenError PyStr)
    (p : PyStr → GenerationResult)
    (rp : Option PyStr) (mn : Option PyStr) (jl : PyStr)
    (g : Except PyStr GenerationResult) (lo : Except String Unit)
    (h : isBlank jd = true) :
    GenStep.composePrompt ∉ (generate_cover_letter pv jd eo go p).1 ∧
    GenStep.invokeGateway ∉ (generate_cover_letter pv jd eo go p).1 ∧
    (∃ err, (generate_cover_letter pv jd eo go p).2 = .error err) ∧
    (uiGenerate rp jd mn jl g lo).genCalled = false := by
  have hui : (uiGenerate rp jd mn jl g lo).genCalled = false := by
    unfold uiGenerate
    split
    · rfl
    · split
      · rfl
      · next h2 => exact absurd (by rw [h, Bool.or_true]) h2
  have horch : (generate_cover_letter pv jd eo go p).1 = [.validateProvider] ∨
      (generate_cover_letter pv jd eo go p).1 = [.validateProvider, .extractDoc] := by
    unfold generate_cover_letter
    cases pv
    · simp
    · cases eo with
      | error u => simp
      | ok doc => simp [h]
  have herr : ∃ err, (generate_cover_letter pv jd eo go p).2 = .error err := by
    unfold generate_cover_letter
    cases pv
    · exact ⟨.unsupportedProvider, by simp⟩
    · cases eo with
      | error u => exact ⟨.unreadableDocument, by simp⟩
      | ok doc => exact ⟨.emptyJobDescription, by simp [h]⟩
  refine ⟨?_, ?_, herr, hui⟩ <;> rcases horch with h1 | h1 <;> rw [h1] <;> decide

/-- C6 witness: with a valid provider, readable document and empty job
description, no prompt is composed, the gateway is not invoked, an
error is surfaced, and the UI handler does not call the core. -/
theorem C6_fail_fast_blank_jd_witness :
    GenStep.composePrompt ∉
        (generate_cover_letter true [] (.ok "resume".data) (.ok [])
          (fun _ => ⟨[], [], [], []⟩)).1 ∧
    GenStep.invokeGateway ∉
        (generate_cover_letter true [] (.ok "resume".data) (.ok [])
          (fun _ => ⟨[], [], [], []⟩)).1 ∧
    (∃ err, (generate_cover_letter true [] (.ok "resume".data) (.ok [])
          (fun _ => ⟨[], [], [], []⟩)).2 = .error err) ∧
    (uiGenerate (some "r.pdf".data) [] (some "m".data) []
        (.ok ⟨[], [], [], []⟩) (.ok ())).genCalled = false :=
  C6_fail_fast_blank_jd true [] (.ok "resume".data) (.ok [])
    (fun _ => ⟨[], [], [], []⟩) (some "r.pdf".data) (some "m".data) []
    (.ok ⟨[], [], [], []⟩) (.ok ()) (by decide)

/-- C7: updateStatus on a row number that does not exist in the current
table fails with RecordNotFound and leaves the persisted table
completely unchanged. -/
theorem C7_update_status_not_found (n : Int) (st : Status)
    (table : List AppRecord) (h : ∀ r ∈ table, (r.rowNumber : Int) ≠ n) :
    mark_application_status n st table = (.error .recordNotFound, table) := by
  have hany : (table.any fun r => (r.rowNumber : Int) == n) = false := by
    rw [List.any_eq_false]
    intro r hr
    simpa using h r hr
  unfold mark_application_status
  rw [hany]
  simp

/-- C7 witness: row 999 in a 3-row table fails with RecordNotFound and
the table is unchanged. -/
theorem C7_update_status_not_found_witness :
    mark_application_status 999 .accepted
        [⟨1, "A".data, "R1".data, [], [], .applied⟩,
         ⟨2, "B".data, "R2".data, [], [], .applied⟩,
         ⟨3, "C".data, "R3".data, [], [], .applied⟩] =
      (.error .recordNotFound,
       [⟨1, "A".data, "R1".data, [], [], .applied⟩,
        ⟨2, "B".data, "R2".data, [], [], .applied⟩,
        ⟨3, "C".data, "R3".data, [], [], .applied⟩]) :=
  C7_update_status_not_found 999 .accepted _ (by decide)

/-- C8: every record listed gets a selectable label of the form
"row#. Company — Role", and parsing the label back as the status-update
dispatch does — the prefix before the first dot, converted to an
integer — yields exactly the record's row number. -/
theorem C8_label_roundtrip (table : List AppRecord) (r : AppRecord)
    (h : r ∈ (load_applications table).1) :
    appLabel r ∈ (load_applications table).2 ∧
    parsePyInt (splitHeadDot (appLabel r)) = some (Int.ofNat r.rowNumber) := by
  constructor
  · exact List.mem_map_of_mem appLabel h
  · unfold appLabel splitHeadDot
    rw [takeWhile_append_of (' ' :: (r.company ++ ' ' :: '—' :: ' ' :: r.role))
        (fun a ha => by
          simp only [bne_iff_ne, ne_eq]
          exact ne_dot_of_isDigit (natChars_all_digit ha))
        (by decide)]
    exact parsePyInt_natChars r.rowNumber

/-- C8 witness: the label of a row-12 record round-trips to 12. -/
theorem C8_label_roundtrip_witness :
    appLabel ⟨12, "Acme".data, "Eng".data, [], [], .applied⟩ ∈
      (load_applications [⟨12, "Acme".data, "Eng".data, [], [], .applied⟩]).2 ∧
    parsePyInt
        (splitHeadDot (appLabel ⟨12, "Acme".data, "Eng".data, [], [], .applied⟩)) =
      some (Int.ofNat 12) :=
  C8_label_roundtrip [⟨12, "Acme".data, "Eng".data, [], [], .applied⟩]
    ⟨12, "Acme".data, "Eng".data, [], [], .applied⟩ (by decide)

/-- C9: _sanitize_filename always returns a nonempty string containing
none of the reserved filename characters and no whitespace; for blank
input it returns exactly cover_letter. -/
theorem C9_sanitize_filename (name : PyStr) :
    sanitize_filename name ≠ [] ∧
    (∀ c ∈ sanitize_filename name, isBadChar c = false) ∧
    (isBlank name = true → sanitize_filename name = "cover_letter".data) := by
  refine ⟨?_, ?_, ?_⟩
  · unfold sanitize_filename
    split
    · decide
    · split
      · decide
      · next hs => exact fun hn => hs (by rw [hn]; rfl)
  · unfold sanitize_filename
    split
    · decide
    · split
      · decide
      · exact fun c hc => subBadRuns_no_bad false (pyStrip name) c hc
  · intro hb
    unfold sanitize_filename
    rw [if_pos hb]

/-- C9 witness: a whitespace-only name yields cover_letter. -/
theorem C9_sanitize_filename_witness :
    sanitize_filename " ".data = "cover_letter".data :=
  (C9_sanitize_filename " ".data).2.2 (by decide)

/-- C10: with a nonempty selection and a status, _do_mark_status avoids
the ValueError raise only when the prefix of the selection before the
first dot parses as an integer; a nonempty selection with a non-numeric
prefix makes the row-number conversion raise. -/
theorem C10_row_conversion :
    (∀ (sel : PyStr) (st : Status) (table : List AppRecord), sel ≠ [] →
        noRaise (do_mark_status (some sel) (some st) table).1 = true →
        (parsePyInt (splitHeadDot sel)).isSome = true) ∧
    (do_mark_status (some "abc".data) (some .accepted) []).1 =
      .error .valueError := by
  constructor
  · intro sel st table hne hok
    cases hp : parsePyInt (splitHeadDot sel) with
    | some n => simp [hp]
    | none =>
        exfalso
        have hne' : ¬(sel.isEmpty = true) := by
          simp only [List.isEmpty_iff]
          exact hne
        have hval : (do_mark_status (some sel) (some st) table).1 =
            .error .valueError := by
          simp only [do_mark_status, if_neg hne', hp]
        rw [hval] at hok
        exact absurd hok (by decide)
  · rfl

/-- C10 witness: a selection with numeric prefix 12 completes the
conversion without a raise, and its prefix indeed parses. -/
theorem C10_row_conversion_witness :
    (parsePyInt (splitHeadDot "12. Acme".data)).isSome = true :=
  C10_row_conversion.1 "12. Acme".data .accepted [] (by decide) (by decide)

end HiredEv
